import Mathlib

/-!
Verification development for the CivicLens backend (Node.js/Express + Supabase +
Gemini). The JavaScript handlers are shallowly embedded as pure Lean functions;
every external collaborator (image fetch, model call, platform JSON.parse, data
store) is made explicit as an environment record, so each handler becomes a
total function of its request and that environment.
-/

namespace CivicLens

/-- JavaScript truthiness for a possibly-absent string value: `undefined`/`null`
and the empty string are falsy, every other string is truthy. -/
def jsTruthyStr : Option String → Bool
  | none => false
  | some s => !(s == "")

/-- JavaScript `a || b` on possibly-absent string values: yields `a` when `a`
is truthy, otherwise `b`. -/
def jsOrStr (a b : Option String) : Option String :=
  if jsTruthyStr a then a else b

/-- The opening-brace character, written via its code point. -/
def lbrace : Char := Char.ofNat 123

/-- The closing-brace character, written via its code point. -/
def rbrace : Char := Char.ofNat 125

/-- Index of the first occurrence of a character in a list, if any. -/
def firstIdxOf (c : Char) (cs : List Char) : Option Nat :=
  cs.findIdx? (· = c)

/-- Index of the last occurrence of a character in a list, if any. -/
def lastIdxOf (c : Char) : List Char → Option Nat
  | [] => none
  | a :: rest =>
    match lastIdxOf c rest with
    | some j => some (j + 1)
    | none => if a = c then some 0 else none

/-- Embedding of the JavaScript `text.match(/\x7b[\s\S]*\x7d/)` step of
`classifyIssue` (gemini.js line 91): the greedy match runs from the first
opening brace that is followed by a closing brace up to the last closing brace
of the string; `none` when the text contains no such block. -/
def jsonMatch (s : String) : Option String :=
  let cs := s.data
  match firstIdxOf lbrace cs, lastIdxOf rbrace cs with
  | some i, some j =>
    if i < j then some (String.mk ((cs.drop i).take (j - i + 1))) else none
  | some _, none => none
  | none, _ => none

/-- Embedding of `role.replace(/[-_ ]/g, '')` (auth middleware): delete every
hyphen, underscore and space character. -/
def stripSeps (s : String) : String :=
  String.mk (s.data.filter (fun c => !(c = '-' || c = '_' || c = ' ')))

/-- Embedding of JavaScript `String.prototype.toLowerCase` on the ASCII
fragment the role strings live in. -/
def jsToLowerCase (s : String) : String :=
  String.mk (s.data.map Char.toLower)

/-- Embedding of JavaScript `String.prototype.trim` on ASCII whitespace:
drop leading and trailing whitespace characters. -/
def jsTrim (s : String) : String :=
  String.mk (((s.data.dropWhile Char.isWhitespace).reverse.dropWhile
    Char.isWhitespace).reverse)

/-- Embedding of `normalizeRole` from the authentication middleware
(supabase.js/auth lines 60–65): falsy input (absent or empty) maps to
`citizen`; otherwise lower-case, strip separators, trim, and map the three
synonyms to `head_authority`, everything else to `citizen`. -/
def normalizeRole (role : Option String) : String :=
  match role with
  | none => "citizen"
  | some s =>
    if s = "" then "citizen"
    else
      let r := jsTrim (stripSeps (jsToLowerCase s))
      if r = "headauthority" || r = "authorityhead" || r = "admin" then
        "head_authority"
      else "citizen"

/-- Shape of the classification object `classifyIssue` returns (and of the
parsed model reply): the three JSON keys the service reads, each possibly
absent. -/
structure Classification where
  issue_type : Option String
  assigned_authority : Option String
  error : Option String
deriving DecidableEq, Repr

/-- The fixed fallback classification of the `catch` block of `classifyIssue`
(gemini.js lines 113–116). -/
def fallbackClassification : Classification :=
  { issue_type := some "other", assigned_authority := some "head", error := none }

/-- External world visible to one `classifyIssue` call: whether the image
fetch succeeds, whether the model call (and reading its reply text) succeeds,
the reply text, and the platform `JSON.parse` (an oracle: `none` models a
parse exception). -/
structure GeminiEnv where
  fetchOk : Bool
  modelOk : Bool
  replyText : String
  parseJSON : String → Option Classification

/-- The category→department mapping stated verbatim in the classifier prompt
(gemini.js lines 48–53). -/
def promptAuthority (t : String) : Option String :=
  if t = "waterlog" then some "drainage"
  else if t = "damagestreetlight" then some "streetlight"
  else if t = "pothole" then some "road"
  else if t = "garbage" then some "garbage"
  else if t = "other" then some "head"
  else none

/-- Embedding of `classifyIssue` (gemini.js lines 13–118): fetch the image,
call the model, extract the first brace-delimited block of the reply, parse
it; any failure on that path is caught and yields the fixed fallback. A parsed
reply with a truthy `error` field becomes the distinct "not a civic issue"
result; otherwise the parsed reply is returned unchanged. -/
def classifyIssue (env : GeminiEnv) : Classification :=
  if env.fetchOk = false then fallbackClassification
  else if env.modelOk = false then fallbackClassification
  else
    match jsonMatch env.replyText with
    | none => fallbackClassification
    | some s =>
      match env.parseJSON s with
      | none => fallbackClassification
      | some r =>
        if jsTruthyStr r.error then
          { issue_type := some "Not a civic issue"
            assigned_authority := some "none"
            error := r.error }
        else r

/-- Request body of `POST /issues` (issueController.createIssue, line 134):
each field is `none` when absent from the JSON body. The coordinates are
modelled as integers carried through unchanged (no claim depends on the
floating-point semantics of `Number`). -/
structure CreateBody where
  image_url : Option String
  description : Option String
  location_lat : Option Int
  location_lng : Option Int
  manual_department : Option String
  manual_issue_type : Option String
  is_manual_submission : Option Bool
deriving DecidableEq, Repr

/-- The `ai_analysis` blob stored with an issue: the spread of the
classification result plus the `is_manual` flag (gemini.js lines 189–192). -/
structure AiAnalysis where
  issue_type : Option String
  assigned_authority : Option String
  error : Option String
  is_manual : Bool
deriving DecidableEq, Repr

/-- The row payload `createIssue` sends to the `issues` insert
(gemini.js lines 180–194). -/
structure IssueData where
  citizen_id : String
  image_url : String
  description : String
  location_lat : Int
  location_lng : Int
  issue_type : Option String
  assigned_authority : Option String
  department : Option String
  ai_analysis : AiAnalysis
  status : String
deriving DecidableEq, Repr

/-- HTTP response of `createIssue`, one constructor per `res.status(...)`
site of the handler. -/
inductive CreateResponse where
  /-- 400 with `{error}` (validation failures). -/
  | badRequest (error : String)
  /-- 400 with `{error, details}` (the not-a-civic-issue rejection,
  gemini.js lines 156–159). -/
  | badRequestDetails (error : String) (details : String)
  /-- 401 `User session invalid`. -/
  | unauthorized (error : String)
  /-- 400 `Database insert failed` with the data-store message. -/
  | insertFailed (details : String)
  /-- 201 with the created row. -/
  | created (issue : IssueData)
  /-- 500 from the surrounding catch (insert succeeded but returned no row). -/
  | serverError
deriving DecidableEq, Repr

/-- Data-store behaviour visible to one `createIssue` call: an insert error
message if the insert fails, and whether a successful insert returns the row
(gemini.js lines 198–215). -/
structure CreateDbEnv where
  insertError : Option String
  insertReturnsRows : Bool
deriving Repr

/-- Observable outcome of one `createIssue` call: the HTTP response, whether
the classifier was invoked, and the issue record written to the store
(`none` when nothing was written). -/
structure CreateOutcome where
  response : CreateResponse
  classifierCalled : Bool
  inserted : Option IssueData
deriving DecidableEq, Repr

/-- Embedding of the `isManual` computation (gemini.js lines 168–172):
`is_manual_submission === true`, or a manual department / issue type that is
truthy and not whitespace-only. -/
def isManualOf (body : CreateBody) : Bool :=
  (body.is_manual_submission == some true)
  || (match body.manual_department with
      | some s => !(s == "") && !(jsTrim s == "")
      | none => false)
  || (match body.manual_issue_type with
      | some s => !(s == "") && !(jsTrim s == "")
      | none => false)

/-- Name of the first missing request field in the order the handler checks
them (gemini.js lines 137–140): `image_url` and `description` by JavaScript
truthiness, the coordinates by presence only. -/
def firstMissingField (body : CreateBody) : Option String :=
  if !jsTruthyStr body.image_url then some "image_url"
  else if !jsTruthyStr body.description then some "description"
  else if body.location_lat.isNone then some "location_lat"
  else if body.location_lng.isNone then some "location_lng"
  else none

/-- Embedding of `createIssue` (issueController lines 128–228): validate the
body, require a user id, run the classifier, reject a truthy classifier
`error`, apply manual overrides, build the row and insert it. -/
def createIssue (user : Option String) (body : CreateBody)
    (env : GeminiEnv) (db : CreateDbEnv) : CreateOutcome :=
  if !jsTruthyStr body.image_url then
    ⟨.badRequest "Missing field: image_url", false, none⟩
  else if !jsTruthyStr body.description then
    ⟨.badRequest "Missing field: description", false, none⟩
  else if body.location_lat.isNone then
    ⟨.badRequest "Missing field: location_lat", false, none⟩
  else if body.location_lng.isNone then
    ⟨.badRequest "Missing field: location_lng", false, none⟩
  else
    match user with
    | none => ⟨.unauthorized "User session invalid", false, none⟩
    | some citizen_id =>
      let aiResult := classifyIssue env
      if jsTruthyStr aiResult.error then
        ⟨.badRequestDetails "Submission not related to civic issues"
            (aiResult.error.getD ""), true, none⟩
      else
        let finalDepartment := jsOrStr body.manual_department aiResult.assigned_authority
        let finalIssueType := jsOrStr body.manual_issue_type aiResult.issue_type
        let isManual := isManualOf body
        let issueData : IssueData :=
          { citizen_id := citizen_id
            image_url := body.image_url.getD ""
            description := body.description.getD ""
            location_lat := body.location_lat.getD 0
            location_lng := body.location_lng.getD 0
            issue_type := finalIssueType
            assigned_authority := finalDepartment
            department := finalDepartment
            ai_analysis :=
              { issue_type := aiResult.issue_type
                assigned_authority := aiResult.assigned_authority
                error := aiResult.error
                is_manual := isManual }
            status := "reported" }
        match db.insertError with
        | some msg => ⟨.insertFailed msg, true, none⟩
        | none =>
          if db.insertReturnsRows then ⟨.created issueData, true, some issueData⟩
          else ⟨.serverError, true, some issueData⟩

/-- A stored row of the `issues` table, as read back by the handlers. -/
structure IssueRow where
  id : String
  citizen_id : String
  image_url : String
  description : String
  location_lat : Int
  location_lng : Int
  issue_type : Option String
  assigned_authority : Option String
  department : Option String
  ai_analysis : AiAnalysis
  status : String
  resolved_image_url : Option String
  resolved_at : Option String
  created_at : String
deriving DecidableEq, Repr

/-- Request body of `PATCH /issues/:id/status` (gemini.js line 290). -/
structure UpdateBody where
  status : String
  resolved_image_url : Option String
deriving DecidableEq, Repr

/-- The patch object `updateData` the handler sends to the store
(gemini.js lines 309–314): always the status; the resolved-image reference
and the resolution timestamp only when the new status is `resolved` and a
truthy resolved-image reference was supplied. A `none` field means the patch
does not touch that column. -/
structure UpdateData where
  status : String
  resolved_image_url : Option String
  resolved_at : Option String
deriving DecidableEq, Repr

/-- Builds `updateData` exactly as gemini.js lines 309–314 do. -/
def buildUpdateData (body : UpdateBody) (now : String) : UpdateData :=
  if body.status = "resolved" && jsTruthyStr body.resolved_image_url then
    { status := body.status
      resolved_image_url := body.resolved_image_url
      resolved_at := some now }
  else
    { status := body.status, resolved_image_url := none, resolved_at := none }

/-- Data-store semantics of `.update(updateData).eq('id', id)`: columns named
in the patch are overwritten, all other columns are untouched. -/
def applyUpdateData (row : IssueRow) (u : UpdateData) : IssueRow :=
  { row with
    status := u.status
    resolved_image_url :=
      match u.resolved_image_url with
      | some v => some v
      | none => row.resolved_image_url
    resolved_at :=
      match u.resolved_at with
      | some v => some v
      | none => row.resolved_at }

/-- One row of the `issue_logs` audit table (gemini.js lines 337–345). -/
structure LogData where
  issue_id : String
  old_status : String
  new_status : String
  changed_by : String
  resolved_image_url : Option String
deriving DecidableEq, Repr

/-- HTTP response of `updateStatus`, one constructor per response site. -/
inductive UpdateResponse where
  /-- 400 `Invalid status`. -/
  | invalidStatus
  /-- 404 `Issue not found` (either on the fetch or on an empty update). -/
  | notFound
  /-- 500 `Database update failed` with the data-store message. -/
  | updateFailed (message : String)
  /-- 200 with the updated row. -/
  | ok (row : IssueRow)
deriving DecidableEq, Repr

/-- External world visible to one `updateStatus` call: the wall-clock ISO
timestamp, the row matched by the id (if any), an update error message if the
update fails, whether the update returns the row, and whether the audit-log
insert succeeds. -/
structure UpdateEnv where
  now : String
  oldRow : Option IssueRow
  updateError : Option String
  updateReturnsRows : Bool
  logInsertOk : Bool
deriving Repr

/-- Observable outcome of one `updateStatus` call: the HTTP response, the row
as persisted by the update (`none` when nothing was written), the audit-log
rows the handler attempted to append, and those actually committed. -/
structure UpdateOutcome where
  response : UpdateResponse
  newRow : Option IssueRow
  logsAttempted : List LogData
  logsWritten : List LogData
deriving DecidableEq, Repr

/-- Embedding of `updateStatus` (issueController lines 287–358): validate the
status value, fetch the old row, build and apply the patch, then append one
best-effort audit row whose own failure is swallowed by an inner
try/catch. -/
def updateStatus (id : String) (changed_by : String) (body : UpdateBody)
    (env : UpdateEnv) : UpdateOutcome :=
  if !(["reported", "in_progress", "resolved"].contains body.status) then
    ⟨.invalidStatus, none, [], []⟩
  else
    match env.oldRow with
    | none => ⟨.notFound, none, [], []⟩
    | some oldIssue =>
      let u := buildUpdateData body env.now
      match env.updateError with
      | some msg => ⟨.updateFailed msg, none, [], []⟩
      | none =>
        if !env.updateReturnsRows then ⟨.notFound, none, [], []⟩
        else
          let updated := applyUpdateData oldIssue u
          let logData : LogData :=
            { issue_id := id
              old_status := oldIssue.status
              new_status := body.status
              changed_by := changed_by
              resolved_image_url :=
                if body.status = "resolved" && jsTruthyStr body.resolved_image_url then
                  body.resolved_image_url
                else none }
          ⟨.ok updated, some updated,
            [logData],
            if env.logInsertOk then [logData] else []⟩

/-- HTTP response of `reassignIssue`. -/
inductive ReassignResponse where
  /-- 200 with the updated row. -/
  | ok (row : IssueRow)
  /-- 500 `Failed to reassign issue` with detail. -/
  | failed (details : String)
deriving DecidableEq, Repr

/-- External world visible to one `reassignIssue` call: the row matched by
the id (a missing row makes `.single()` report an error), and a data-store
error message if the update fails. -/
structure ReassignEnv where
  row : Option IssueRow
  dbError : Option String
deriving Repr

/-- Data-store semantics of the reassignment patch (gemini.js lines 371–374):
both the `assigned_authority` and the `department` column are overwritten
with the supplied value. -/
def applyReassign (row : IssueRow) (v : Option String) : IssueRow :=
  { row with assigned_authority := v, department := v }

/-- Embedding of `reassignIssue` (issueController lines 364–389): overwrite
both department columns with the request value, unvalidated; any data-store
error (including `.single()` finding no row) surfaces as a 500. The second
component is the row as persisted. -/
def reassignIssue (assigned_authority : Option String)
    (env : ReassignEnv) : ReassignResponse × Option IssueRow :=
  match env.dbError with
  | some msg => (.failed msg, none)
  | none =>
    match env.row with
    | none => (.failed "JSON object requested, multiple (or no) rows returned", none)
    | some row =>
      let r := applyReassign row assigned_authority
      (.ok r, some r)

/-! Concrete external-world environments used to instantiate the theorems. -/

/-- A model reply classifying a pothole with the prompt-conformant
department. -/
def replyRoad : String :=
  "\x7b\"issue_type\":\"pothole\",\"assigned_authority\":\"road\"\x7d"

/-- JSON.parse behaviour on `replyRoad`. -/
def parseRoad : String → Option Classification :=
  fun s => if s = replyRoad then some ⟨some "pothole", some "road", none⟩ else none

/-- Healthy environment whose model reply is `replyRoad`. -/
def envRoad : GeminiEnv := ⟨true, true, replyRoad, parseRoad⟩

/-- A model reply whose department contradicts the prompt's mapping table. -/
def replyMismatch : String :=
  "\x7b\"issue_type\":\"pothole\",\"assigned_authority\":\"drainage\"\x7d"

/-- JSON.parse behaviour on `replyMismatch`. -/
def parseMismatch : String → Option Classification :=
  fun s => if s = replyMismatch then some ⟨some "pothole", some "drainage", none⟩ else none

/-- Healthy environment whose model reply is `replyMismatch`. -/
def envMismatch : GeminiEnv := ⟨true, true, replyMismatch, parseMismatch⟩

/-- A model reply carrying the not-a-civic-issue error object. -/
def replyNotCivic : String :=
  "\x7b\"error\":\"Image/description not related to civic issues.\"\x7d"

/-- JSON.parse behaviour on `replyNotCivic`. -/
def parseNotCivic : String → Option Classification :=
  fun s =>
    if s = replyNotCivic then
      some ⟨none, none, some "Image/description not related to civic issues."⟩
    else none

/-- Healthy environment whose model reply is `replyNotCivic`. -/
def envNotCivic : GeminiEnv := ⟨true, true, replyNotCivic, parseNotCivic⟩

/-- Environment in which the image fetch throws. -/
def envFetchFail : GeminiEnv := ⟨false, true, "", fun _ => none⟩

/-! Claim theorems. -/

/-- C1 (counterexample): the code does not enforce the category→department
table on the model's reply. In a healthy environment whose reply names
category `pothole` but department `drainage`, `classifyIssue` returns that
reply verbatim: a returned classification whose `issue_type` is one of the
five categories while `assigned_authority` differs from the table value
(`road`), refuting the claim as stated. -/
theorem classify_mapping_not_enforced_cex :
    (classifyIssue envMismatch).issue_type = some "pothole"
    ∧ (classifyIssue envMismatch).assigned_authority = some "drainage"
    ∧ promptAuthority "pothole" = some "road"
    ∧ (some "drainage" : Option String) ≠ some "road" := by decide

/-- C1 (amended): the mapping table embedded in the classifier prompt is a
total deterministic function over the five categories with exactly the
claimed values, and `classifyIssue` returns the parsed model reply unchanged,
so whenever the reply conforms to the prompt's mapping rule the returned
`assigned_authority` equals the table value for the returned `issue_type`. -/
theorem classify_mapping_conformant_reply (env : GeminiEnv) (t a : String)
    (hf : env.fetchOk = true) (hm : env.modelOk = true)
    (hp : (jsonMatch env.replyText).bind env.parseJSON = some ⟨some t, some a, none⟩)
    (ht : promptAuthority t = some a) :
    classifyIssue env = ⟨some t, some a, none⟩
    ∧ (classifyIssue env).assigned_authority = promptAuthority t
    ∧ (promptAuthority "waterlog" = some "drainage"
       ∧ promptAuthority "damagestreetlight" = some "streetlight"
       ∧ promptAuthority "pothole" = some "road"
       ∧ promptAuthority "garbage" = some "garbage"
       ∧ promptAuthority "other" = some "head") := by
  have hc : classifyIssue env = ⟨some t, some a, none⟩ := by
    unfold classifyIssue
    rw [hf, hm]
    cases hj : jsonMatch env.replyText with
    | none => rw [hj] at hp; simp at hp
    | some s =>
      rw [hj] at hp
      simp only [Option.some_bind] at hp
      simp [hj, hp, jsTruthyStr]
  refine ⟨hc, ?_, by decide⟩
  rw [hc, ht]

/-- C1 (amended, witness): instantiated at a healthy environment whose model
reply is the conformant pothole/road classification. -/
theorem classify_mapping_conformant_reply_w :
    classifyIssue envRoad = ⟨some "pothole", some "road", none⟩ :=
  (classify_mapping_conformant_reply envRoad "pothole" "road"
    rfl rfl (by decide) (by decide)).1

/-- C2: whenever the external pipeline fails — the image fetch throws, the
model call throws, or the reply text contains no parseable JSON object
(no brace-delimited block, or JSON.parse failing on it) — `classifyIssue`
swallows the failure and returns exactly
`{issue_type := "other", assigned_authority := "head"}`. -/
theorem classify_fallback_on_failure (env : GeminiEnv)
    (h : env.fetchOk = false ∨ env.modelOk = false
      ∨ (jsonMatch env.replyText).bind env.parseJSON = none) :
    classifyIssue env = fallbackClassification := by
  by_cases hf : env.fetchOk = false
  · simp [classifyIssue, hf]
  · by_cases hm : env.modelOk = false
    · simp [classifyIssue, hf, hm]
    · have h3 : (jsonMatch env.replyText).bind env.parseJSON = none := by
        rcases h with h | h | h
        · exact absurd h hf
        · exact absurd h hm
        · exact h
      cases hj : jsonMatch env.replyText with
      | none => simp [classifyIssue, hf, hm, hj]
      | some s =>
        rw [hj] at h3
        simp only [Option.some_bind] at h3
        simp [classifyIssue, hf, hm, hj, h3]

/-- C2 (witness): instantiated at an environment whose image fetch throws. -/
theorem classify_fallback_on_failure_w :
    classifyIssue envFetchFail = fallbackClassification :=
  classify_fallback_on_failure envFetchFail (Or.inl rfl)

/-- C3 (counterexample): the claim omits the `.trim()` the code performs
after stripping separators. On input `"admin\t"` the lower-cased form with
hyphens, underscores and spaces removed is `"admin\t"`, none of the three
trigger words, so the claim maps it to `citizen`; the code trims the tab and
returns `head_authority`. -/
theorem normalizeRole_claim_cex :
    normalizeRole (some "admin\t") = "head_authority"
    ∧ stripSeps (jsToLowerCase "admin\t") ≠ "headauthority"
    ∧ stripSeps (jsToLowerCase "admin\t") ≠ "authorityhead"
    ∧ stripSeps (jsToLowerCase "admin\t") ≠ "admin" := by decide

/-- C3 (amended): `normalizeRole` is a pure total function whose result is
always `citizen` or `head_authority`; an input maps to `head_authority`
exactly when it is non-empty and its lower-cased form with separators
stripped and surrounding whitespace trimmed is one of the three trigger
words; the six concrete examples of the claim hold as stated. -/
theorem normalizeRole_total_and_examples :
    (∀ r : Option String, normalizeRole r = "citizen" ∨ normalizeRole r = "head_authority")
    ∧ normalizeRole (some "Admin") = "head_authority"
    ∧ normalizeRole (some "head-authority") = "head_authority"
    ∧ normalizeRole (some "Authority Head") = "head_authority"
    ∧ normalizeRole (some "") = "citizen"
    ∧ normalizeRole none = "citizen"
    ∧ normalizeRole (some "resident") = "citizen"
    ∧ (∀ s : String, normalizeRole (some s) = "head_authority" ↔
        (s ≠ "" ∧ (jsTrim (stripSeps (jsToLowerCase s)) = "headauthority"
          ∨ jsTrim (stripSeps (jsToLowerCase s)) = "authorityhead"
          ∨ jsTrim (stripSeps (jsToLowerCase s)) = "admin"))) := by
  refine ⟨?_, by decide, by decide, by decide, by decide, by decide, by decide, ?_⟩
  · intro r
    cases r with
    | none => exact Or.inl rfl
    | some s =>
      by_cases h0 : s = ""
      · simp [normalizeRole, h0]
      · simp only [normalizeRole, h0, if_false]
        split
        · exact Or.inr rfl
        · exact Or.inl rfl
  · intro s
    by_cases h0 : s = ""
    · simp [normalizeRole, h0]
    · simp only [normalizeRole, h0, if_false]
      constructor
      · intro h
        refine ⟨h0, ?_⟩
        by_contra hno
        push_neg at hno
        simp [hno.1, hno.2.1, hno.2.2] at h
      · intro ⟨_, h⟩
        rcases h with h | h | h <;> simp [h]

/-- C3 (amended, witness): the range part applied at a concrete input. -/
theorem normalizeRole_total_and_examples_w :
    normalizeRole (some "supervisor") = "citizen"
    ∨ normalizeRole (some "supervisor") = "head_authority" :=
  normalizeRole_total_and_examples.1 (some "supervisor")

/-- A create request with no manual fields. -/
def bodyPlain : CreateBody :=
  ⟨some "http://img", some "desc", some 1, some 2, none, none, none⟩

/-- A create request missing its description. -/
def bodyNoDesc : CreateBody :=
  ⟨some "http://img", none, some 1, some 2, none, none, none⟩

/-- A create request with a manual department of `drainage`. -/
def bodyManualDrainage : CreateBody :=
  ⟨some "http://img", some "desc", some 1, some 2, some "drainage", none, none⟩

/-- A create request whose manual department is a single space. -/
def bodyWhitespaceDept : CreateBody :=
  ⟨some "http://img", some "desc", some 1, some 2, some " ", none, none⟩

/-- On bodies whose manual fields are never whitespace-only, the `isManual`
computation agrees with plain JavaScript truthiness of the three override
inputs. -/
theorem isManualOf_no_ws (body : CreateBody)
    (hwd : ∀ s, body.manual_department = some s → jsTrim s = "" → s = "")
    (hwt : ∀ s, body.manual_issue_type = some s → jsTrim s = "" → s = "") :
    isManualOf body =
      ((body.is_manual_submission == some true)
        || jsTruthyStr body.manual_department
        || jsTruthyStr body.manual_issue_type) := by
  unfold isManualOf jsTruthyStr
  cases hm : body.manual_department with
  | none =>
    cases ht : body.manual_issue_type with
    | none => rfl
    | some t =>
      by_cases h : t = ""
      · subst h; simp
      · have hnt : jsTrim t ≠ "" := fun hh => h (hwt t ht hh)
        have e1 : (t == "") = false := beq_eq_false_iff_ne.mpr h
        have e2 : (jsTrim t == "") = false := beq_eq_false_iff_ne.mpr hnt
        simp [e1, e2]
  | some s =>
    have hs := hwd s hm
    by_cases h : s = ""
    · subst h
      cases ht : body.manual_issue_type with
      | none => simp
      | some t =>
        by_cases h2 : t = ""
        · subst h2; simp
        · have hnt : jsTrim t ≠ "" := fun hh => h2 (hwt t ht hh)
          have e1 : (t == "") = false := beq_eq_false_iff_ne.mpr h2
          have e2 : (jsTrim t == "") = false := beq_eq_false_iff_ne.mpr hnt
          simp [e1, e2]
    · have hns : jsTrim s ≠ "" := fun hh => h (hs hh)
      have e1 : (s == "") = false := beq_eq_false_iff_ne.mpr h
      have e2 : (jsTrim s == "") = false := beq_eq_false_iff_ne.mpr hns
      cases ht : body.manual_issue_type with
      | none => simp [e1, e2]
      | some t => simp [e1, e2]

/-- C6: a create request missing one of `image_url`, `description`,
`location_lat`, `location_lng` (checked in exactly that order, the first two
by JavaScript truthiness, the coordinates by presence) is rejected with a 400
naming the first missing field, the classifier is not invoked, and nothing is
written to the store. -/
theorem createIssue_missing_field_400 (user : Option String) (body : CreateBody)
    (env : GeminiEnv) (db : CreateDbEnv) (f : String)
    (h : firstMissingField body = some f) :
    createIssue user body env db =
      ⟨.badRequest ("Missing field: " ++ f), false, none⟩ := by
  unfold firstMissingField at h
  split at h
  next hc =>
    injection h with h; subst h
    unfold createIssue
    rw [if_pos hc]
    rfl
  next hc =>
    split at h
    next hc2 =>
      injection h with h; subst h
      unfold createIssue
      rw [if_neg hc, if_pos hc2]
      rfl
    next hc2 =>
      split at h
      next hc3 =>
        injection h with h; subst h
        unfold createIssue
        rw [if_neg hc, if_neg hc2, if_pos hc3]
        rfl
      next hc3 =>
        split at h
        next hc4 =>
          injection h with h; subst h
          unfold createIssue
          rw [if_neg hc, if_neg hc2, if_neg hc3, if_pos hc4]
          rfl
        next => exact absurd h (by simp)

/-- C6 (witness): a request missing only its description is rejected naming
`description`, without invoking the classifier. -/
theorem createIssue_missing_field_400_w :
    createIssue none bodyNoDesc envFetchFail ⟨none, true⟩ =
      ⟨.badRequest ("Missing field: " ++ "description"), false, none⟩ :=
  createIssue_missing_field_400 none bodyNoDesc envFetchFail ⟨none, true⟩
    "description" (by decide)

/-- C5: when the classifier signals "not a civic issue" (a truthy `error`
field), `createIssue` responds 400 with the fixed error message and the
classifier's error detail, and writes no issue record, whatever the data
store would have done. -/
theorem createIssue_rejects_not_civic (uid : String) (body : CreateBody)
    (env : GeminiEnv) (db : CreateDbEnv) (e : String)
    (h1 : jsTruthyStr body.image_url = true)
    (h2 : jsTruthyStr body.description = true)
    (h3 : body.location_lat.isNone = false)
    (h4 : body.location_lng.isNone = false)
    (he : (classifyIssue env).error = some e) (hne : e ≠ "") :
    createIssue (some uid) body env db =
      ⟨.badRequestDetails "Submission not related to civic issues" e, true, none⟩ := by
  unfold createIssue
  rw [h1, h2, h3, h4]
  simp only [Bool.not_true, if_false, Bool.false_eq_true]
  rw [he]
  simp [jsTruthyStr, hne]

/-- C5 (witness): concrete not-a-civic-issue reply. -/
theorem createIssue_rejects_not_civic_w :
    createIssue (some "u1") bodyPlain envNotCivic ⟨none, true⟩ =
      ⟨.badRequestDetails "Submission not related to civic issues"
          "Image/description not related to civic issues.", true, none⟩ :=
  createIssue_rejects_not_civic "u1" bodyPlain envNotCivic ⟨none, true⟩
    "Image/description not related to civic issues."
    (by decide) (by decide) (by decide) (by decide) (by decide) (by decide)

/-- C4 (counterexample): with a whitespace-only `manual_department` of `" "`
and the AI returning department `road`, the stored record's department is
`" "` — the manual value took precedence over the AI result — yet the stored
`is_manual` flag is `false`: the flag is not true exactly when an override
was applied, refuting the claim as stated. -/
theorem createIssue_whitespace_override_cex :
    ((createIssue (some "u1") bodyWhitespaceDept envRoad ⟨none, true⟩).inserted.map
        (fun d => (d.department, d.ai_analysis.is_manual))) = some (some " ", false)
    ∧ (classifyIssue envRoad).assigned_authority = some "road"
    ∧ (some " " : Option String) ≠ some "road" := by decide

/-- C4 (amended): for create requests none of whose manual fields is a
whitespace-only string, a manual override — non-empty `manual_department`,
non-empty `manual_issue_type`, or `is_manual_submission === true` — takes
precedence over the AI result for the stored department / issue type, and the
stored `ai_analysis.is_manual` is true exactly when one of the three override
inputs was given. (Precedence is decided by JavaScript truthiness; the
`is_manual` flag additionally requires the string to be non-whitespace, which
is why whitespace-only values must be excluded.) -/
theorem createIssue_manual_override (uid : String) (body : CreateBody)
    (env : GeminiEnv) (db : CreateDbEnv) (d : IssueData)
    (h1 : jsTruthyStr body.image_url = true)
    (h2 : jsTruthyStr body.description = true)
    (h3 : body.location_lat.isNone = false)
    (h4 : body.location_lng.isNone = false)
    (he : jsTruthyStr (classifyIssue env).error = false)
    (hwd : ∀ s, body.manual_department = some s → jsTrim s = "" → s = "")
    (hwt : ∀ s, body.manual_issue_type = some s → jsTrim s = "" → s = "")
    (hd : (createIssue (some uid) body env db).inserted = some d) :
    (d.ai_analysis.is_manual = true ↔
      (body.is_manual_submission = some true
        ∨ jsTruthyStr body.manual_department = true
        ∨ jsTruthyStr body.manual_issue_type = true))
    ∧ (jsTruthyStr body.manual_department = true →
        d.department = body.manual_department
        ∧ d.assigned_authority = body.manual_department)
    ∧ (jsTruthyStr body.manual_department = false →
        d.department = (classifyIssue env).assigned_authority)
    ∧ (jsTruthyStr body.manual_issue_type = true →
        d.issue_type = body.manual_issue_type) := by
  unfold createIssue at hd
  rw [h1, h2, h3, h4] at hd
  simp only [Bool.not_true, if_false, Bool.false_eq_true] at hd
  rw [he] at hd
  simp only [if_false, Bool.false_eq_true] at hd
  cases hdb : db.insertError with
  | some msg => rw [hdb] at hd; simp at hd
  | none =>
    rw [hdb] at hd
    dsimp only at hd
    rw [apply_ite CreateOutcome.inserted] at hd
    dsimp only at hd
    rw [ite_self] at hd
    injection hd with hd
    subst hd
    refine ⟨?_, ?_, ?_, ?_⟩
    · dsimp only
      rw [isManualOf_no_ws body hwd hwt]
      simp [Bool.or_eq_true, beq_iff_eq, or_assoc]
    · intro hm
      dsimp only
      unfold jsOrStr
      rw [hm]
      exact ⟨if_pos rfl, if_pos rfl⟩
    · intro hm
      dsimp only
      unfold jsOrStr
      rw [hm]
      exact if_neg (by simp)
    · intro hm
      dsimp only
      unfold jsOrStr
      rw [hm]
      exact if_pos rfl

/-- The record `createIssue` stores for `bodyManualDrainage` in the healthy
pothole/road environment. -/
def recDrainage : IssueData :=
  { citizen_id := "u1"
    image_url := "http://img"
    description := "desc"
    location_lat := 1
    location_lng := 2
    issue_type := some "pothole"
    assigned_authority := some "drainage"
    department := some "drainage"
    ai_analysis :=
      { issue_type := some "pothole"
        assigned_authority := some "road"
        error := none
        is_manual := true }
    status := "reported" }

/-- C4 (amended, witness): supplying `manual_department="drainage"` while the
AI returns `road` stores department `drainage` with `is_manual = true`. -/
theorem createIssue_manual_override_w :
    recDrainage.department = some "drainage"
    ∧ recDrainage.ai_analysis.is_manual = true := by
  have h := createIssue_manual_override "u1" bodyManualDrainage envRoad
    ⟨none, true⟩ recDrainage
    (by decide) (by decide) (by decide) (by decide) (by decide)
    (fun s hs hh => by
      injection hs with hs
      subst hs
      exact absurd hh (by decide))
    (fun s hs => nomatch hs)
    (by decide)
  exact ⟨(h.2.1 (by decide)).1, h.1.mpr (Or.inr (Or.inl (by decide)))⟩

/-- A concrete stored issue row used to instantiate the update theorems. -/
def row0 : IssueRow :=
  { id := "i1"
    citizen_id := "u1"
    image_url := "http://img"
    description := "desc"
    location_lat := 1
    location_lng := 2
    issue_type := some "pothole"
    assigned_authority := some "road"
    department := some "road"
    ai_analysis := ⟨some "pothole", some "road", none, false⟩
    status := "reported"
    resolved_image_url := none
    resolved_at := none
    created_at := "2024-01-01T00:00:00Z" }

/-- A concrete healthy update environment holding `row0`. -/
def envU : UpdateEnv := ⟨"2024-05-01T10:00:00Z", some row0, none, true, true⟩

/-- A concrete resolve-with-image request body. -/
def bodyResolve : UpdateBody := ⟨"resolved", some "http://done"⟩

/-- The row `updateStatus` persists for `bodyResolve` against `row0`. -/
def rowResolved : IssueRow :=
  { row0 with
    status := "resolved"
    resolved_image_url := some "http://done"
    resolved_at := some "2024-05-01T10:00:00Z" }

/-- Helper: on a success response, the row `updateStatus` returned is the old
row patched with `buildUpdateData`. -/
theorem updateStatus_ok_row (id changed_by : String) (body : UpdateBody)
    (env : UpdateEnv) (old r : IssueRow) (hold : env.oldRow = some old)
    (hok : (updateStatus id changed_by body env).response = .ok r) :
    r = applyUpdateData old (buildUpdateData body env.now) := by
  unfold updateStatus at hok
  rw [hold] at hok
  by_cases hv : (["reported", "in_progress", "resolved"].contains body.status) = true
  · rw [hv] at hok
    simp only [Bool.not_true, if_false, Bool.false_eq_true] at hok
    cases hue : env.updateError with
    | some msg => rw [hue] at hok; simp at hok
    | none =>
      rw [hue] at hok
      by_cases hr : env.updateReturnsRows = true
      · rw [hr] at hok
        simp only [Bool.not_true, if_false, Bool.false_eq_true] at hok
        injection hok with hok
        exact hok.symm
      · rw [Bool.not_eq_true] at hr
        rw [hr] at hok
        simp at hok
  · rw [Bool.not_eq_true] at hv
    rw [hv] at hok
    simp at hok

/-- Helper: the response of `updateStatus` does not depend on whether the
audit-log insert succeeds. -/
theorem updateStatus_response_const_log (id changed_by : String)
    (body : UpdateBody) (env : UpdateEnv) (b : Bool) :
    (updateStatus id changed_by body { env with logInsertOk := b }).response =
      (updateStatus id changed_by body env).response := by
  obtain ⟨now, orow, uerr, urr, lok⟩ := env
  unfold updateStatus
  dsimp only
  by_cases hv : (["reported", "in_progress", "resolved"].contains body.status) = true
  · rw [hv]
    cases orow with
    | none => rfl
    | some old =>
      cases uerr with
      | some msg => rfl
      | none => cases urr with
        | false => rfl
        | true => rfl
  · rw [Bool.not_eq_true] at hv
    rw [hv]
    rfl

/-- C7: the resolved-image reference and the resolution timestamp are written
together or not at all, and only when the new status is `resolved`: the patch
contains one exactly when it contains the other and only for a resolved
status; on a successful update without a truthy resolved-image both columns
keep their previous values (in particular they stay unset when they were
unset), and a successful update to `resolved` with a truthy resolved-image
writes both the reference and the current timestamp in the same patch. -/
theorem updateStatus_resolved_fields_together (id changed_by : String)
    (body : UpdateBody) (env : UpdateEnv) (old r : IssueRow)
    (hold : env.oldRow = some old)
    (hok : (updateStatus id changed_by body env).response = .ok r) :
    ((buildUpdateData body env.now).resolved_image_url.isSome ↔
      (buildUpdateData body env.now).resolved_at.isSome)
    ∧ ((buildUpdateData body env.now).resolved_image_url.isSome →
        body.status = "resolved")
    ∧ (jsTruthyStr body.resolved_image_url = false →
        r.resolved_at = old.resolved_at
        ∧ r.resolved_image_url = old.resolved_image_url)
    ∧ (body.status = "resolved" → jsTruthyStr body.resolved_image_url = true →
        r.resolved_image_url = body.resolved_image_url
        ∧ r.resolved_at = some env.now) := by
  have hr := updateStatus_ok_row id changed_by body env old r hold hok
  subst hr
  unfold applyUpdateData buildUpdateData
  by_cases hc : (body.status = "resolved" && jsTruthyStr body.resolved_image_url) = true
  · have hc2 := hc
    rw [Bool.and_eq_true] at hc2
    obtain ⟨hs, hu⟩ := hc2
    have hs2 : body.status = "resolved" := of_decide_eq_true hs
    rw [if_pos hc]
    dsimp only
    refine ⟨?_, fun _ => hs2, ?_, fun _ _ => ?_⟩
    · cases hb : body.resolved_image_url with
      | none => rw [hb] at hu; simp [jsTruthyStr] at hu
      | some v => simp
    · intro hfalse
      rw [hfalse] at hu
      exact absurd hu (by simp)
    · cases hb : body.resolved_image_url with
      | none => rw [hb] at hu; simp [jsTruthyStr] at hu
      | some v => exact ⟨rfl, rfl⟩
  · rw [if_neg hc]
    dsimp only
    refine ⟨Iff.rfl, fun h => absurd h (by simp), fun _ => ⟨rfl, rfl⟩, ?_⟩
    intro hs hu
    exact absurd (by rw [Bool.and_eq_true]; exact ⟨decide_eq_true hs, hu⟩) hc

/-- C7 (witness): resolving `row0` with an image writes both the image
reference and the timestamp. -/
theorem updateStatus_resolved_fields_together_w :
    rowResolved.resolved_image_url = bodyResolve.resolved_image_url
    ∧ rowResolved.resolved_at = some "2024-05-01T10:00:00Z" := by
  have h := updateStatus_resolved_fields_together "i1" "h1" bodyResolve envU
    row0 rowResolved rfl (by decide)
  exact h.2.2.2 (by decide) (by decide)

/-- C8: every successful status update attempts exactly one audit-log row,
recording the old status, the new status, the acting user, and — when
resolving with a truthy resolved-image — the resolved-image reference; and
whether the log insert itself succeeds or fails never changes the success
response returned to the caller. -/
theorem updateStatus_single_log_nonfatal (id changed_by : String)
    (body : UpdateBody) (env : UpdateEnv) (old r : IssueRow)
    (hold : env.oldRow = some old)
    (hok : (updateStatus id changed_by body env).response = .ok r) :
    (updateStatus id changed_by body env).logsAttempted =
      [⟨id, old.status, body.status, changed_by,
        if body.status = "resolved" && jsTruthyStr body.resolved_image_url then
          body.resolved_image_url
        else none⟩]
    ∧ ∀ b : Bool,
        (updateStatus id changed_by body { env with logInsertOk := b }).response =
          .ok r := by
  constructor
  · unfold updateStatus at hok ⊢
    rw [hold] at hok ⊢
    by_cases hv : (["reported", "in_progress", "resolved"].contains body.status) = true
    · rw [hv] at hok ⊢
      simp only [Bool.not_true, if_false, Bool.false_eq_true] at hok ⊢
      cases hue : env.updateError with
      | some msg => rw [hue] at hok; simp at hok
      | none =>
        rw [hue] at hok
        by_cases hr : env.updateReturnsRows = true
        · rw [hr]
          rfl
        · rw [Bool.not_eq_true] at hr
          rw [hr] at hok
          simp at hok
    · rw [Bool.not_eq_true] at hv
      rw [hv] at hok
      simp at hok
  · intro b
    rw [updateStatus_response_const_log id changed_by body env b]
    exact hok

/-- C8 (witness): resolving `row0` with an image attempts exactly the one
expected audit row. -/
theorem updateStatus_single_log_nonfatal_w :
    (updateStatus "i1" "h1" bodyResolve envU).logsAttempted =
      [⟨"i1", "reported", "resolved", "h1", some "http://done"⟩] := by
  have h := updateStatus_single_log_nonfatal "i1" "h1" bodyResolve envU
    row0 rowResolved rfl (by decide)
  exact h.1

/-- C10 (implicit frame property): a successful status update changes only
the status column — plus the resolved-image reference and resolution
timestamp in the resolved-with-image case — and leaves every other column of
the issue row (id, citizen_id, image_url, description, coordinates,
issue_type, assigned_authority, department, ai_analysis, created_at)
unchanged. -/
theorem updateStatus_frame (id changed_by : String) (body : UpdateBody)
    (env : UpdateEnv) (old r : IssueRow) (hold : env.oldRow = some old)
    (hok : (updateStatus id changed_by body env).response = .ok r) :
    r.id = old.id ∧ r.citizen_id = old.citizen_id
    ∧ r.image_url = old.image_url ∧ r.description = old.description
    ∧ r.location_lat = old.location_lat ∧ r.location_lng = old.location_lng
    ∧ r.issue_type = old.issue_type
    ∧ r.assigned_authority = old.assigned_authority
    ∧ r.department = old.department ∧ r.ai_analysis = old.ai_analysis
    ∧ r.created_at = old.created_at
    ∧ r.status = body.status
    ∧ (¬(body.status = "resolved" ∧ jsTruthyStr body.resolved_image_url = true) →
        r.resolved_image_url = old.resolved_image_url
        ∧ r.resolved_at = old.resolved_at) := by
  have hr := updateStatus_ok_row id changed_by body env old r hold hok
  subst hr
  unfold applyUpdateData buildUpdateData
  by_cases hc : (body.status = "resolved" && jsTruthyStr body.resolved_image_url) = true
  · rw [if_pos hc]
    rw [Bool.and_eq_true] at hc
    refine ⟨rfl, rfl, rfl, rfl, rfl, rfl, rfl, rfl, rfl, rfl, rfl, rfl, ?_⟩
    intro hn
    exact absurd ⟨of_decide_eq_true hc.1, hc.2⟩ hn
  · rw [if_neg hc]
    exact ⟨rfl, rfl, rfl, rfl, rfl, rfl, rfl, rfl, rfl, rfl, rfl, rfl,
      fun _ => ⟨rfl, rfl⟩⟩

/-- C10 (witness): the resolve-with-image update leaves owner and AI blob
unchanged. -/
theorem updateStatus_frame_w :
    rowResolved.citizen_id = row0.citizen_id
    ∧ rowResolved.ai_analysis = row0.ai_analysis := by
  have h := updateStatus_frame "i1" "h1" bodyResolve envU row0 rowResolved
    rfl (by decide)
  obtain ⟨-, h1, -, -, -, -, -, -, -, h2, -, -, -⟩ := h
  exact ⟨h1, h2⟩

/-- C9: the assigned department and its duplicate column are always written
equal: every record `createIssue` inserts satisfies
`department = assigned_authority`; every row `reassignIssue` returns on
success satisfies it (both columns are overwritten with the supplied value);
and `updateStatus` preserves it, so every record the service produces or
modifies satisfies the invariant. -/
theorem department_mirror_invariant :
    (∀ (user : Option String) (body : CreateBody) (env : GeminiEnv)
        (db : CreateDbEnv) (d : IssueData),
        (createIssue user body env db).inserted = some d →
        d.department = d.assigned_authority)
    ∧ (∀ (aa : Option String) (env : ReassignEnv) (r : IssueRow)
        (w : Option IssueRow),
        reassignIssue aa env = (.ok r, w) →
        r.department = r.assigned_authority)
    ∧ (∀ (id changed_by : String) (body : UpdateBody) (env : UpdateEnv)
        (old r : IssueRow), env.oldRow = some old →
        (updateStatus id changed_by body env).response = .ok r →
        old.department = old.assigned_authority →
        r.department = r.assigned_authority) := by
  refine ⟨?_, ?_, ?_⟩
  · intro user body env db d hd
    unfold createIssue at hd
    split at hd
    · simp at hd
    · split at hd
      · simp at hd
      · split at hd
        · simp at hd
        · split at hd
          · simp at hd
          · cases user with
            | none => simp at hd
            | some uid =>
              dsimp only at hd
              split at hd
              · simp at hd
              · cases hdb : db.insertError with
                | some msg => rw [hdb] at hd; simp at hd
                | none =>
                  rw [hdb] at hd
                  dsimp only at hd
                  rw [apply_ite CreateOutcome.inserted] at hd
                  dsimp only at hd
                  rw [ite_self] at hd
                  injection hd with hd
                  subst hd
                  rfl
  · intro aa env r w h
    unfold reassignIssue at h
    cases hdb : env.dbError with
    | some msg => rw [hdb] at h; simp at h
    | none =>
      rw [hdb] at h
      cases hrow : env.row with
      | none => rw [hrow] at h; simp at h
      | some row =>
        rw [hrow] at h
        dsimp only at h
        have h1 : ReassignResponse.ok (applyReassign row aa) = .ok r :=
          congrArg Prod.fst h
        injection h1 with h1
        subst h1
        rfl
  · intro id changed_by body env old r hold hok hde
    have hr := updateStatus_ok_row id changed_by body env old r hold hok
    subst hr
    exact hde

/-- C9 (witness): the record created for the manual-drainage request has its
two department columns equal. -/
theorem department_mirror_invariant_w :
    recDrainage.department = recDrainage.assigned_authority :=
  department_mirror_invariant.1 (some "u1") bodyManualDrainage envRoad
    ⟨none, true⟩ recDrainage (by decide)

end CivicLens
